import Mathlib

/-!
Verification development for the `lunch_bot` ordering client
(`lunch_bot/order.py`).  The Python source is shallowly embedded: pure
helpers become Lean functions on `String` / `List Char`, the stateful
HTTP flow is modelled by explicit state passing over a `Transport`
record (the upstream server), an `Env` record (process environment) and
a `World` record (the cookie file on disk), and Python exceptions are
modelled with `Except PyExn`.
-/

set_option maxRecDepth 10000

/-! ## Character classes (Python `str` / `re` semantics used by the source) -/

/-- Python whitespace as stripped by `str.strip()` and matched by `re` pattern
backslash-s on `str` patterns (the subset of code points relevant here). -/
def isPySpace (c : Char) : Bool :=
  c = ' ' || c = '\t' || c = '\n' || c = '\r' ||
  c.toNat = 0x0b || c.toNat = 0x0c || c.toNat = 0x85 || c.toNat = 0xa0 ||
  c.toNat = 0x1680 || (0x2000 ≤ c.toNat && c.toNat ≤ 0x200a) ||
  c.toNat = 0x2028 || c.toNat = 0x2029 || c.toNat = 0x202f ||
  c.toNat = 0x205f || c.toNat = 0x3000

/-- ASCII decimal digit (`re` digit class for the inputs that occur here). -/
def isDigitChar (c : Char) : Bool := '0' ≤ c && c ≤ '9'

/-- Numeric value of a digit accepted by Python `int()` in the order client:
ASCII and full-width (U+FF10 .. U+FF19) decimal digits. -/
def pyDigitVal (c : Char) : Option Nat :=
  if '0' ≤ c && c ≤ '9' then some (c.toNat - 48)
  else if 0xff10 ≤ c.toNat && c.toNat ≤ 0xff19 then some (c.toNat - 0xff10)
  else none

/-- Python `re` word-character class for the code points that occur in the
menu tables: ASCII alphanumerics, underscore, hiragana, katakana (excluding
the middle dot), and CJK unified ideographs. -/
def isWordChar (c : Char) : Bool :=
  ('0' ≤ c && c ≤ '9') || ('a' ≤ c && c ≤ 'z') || ('A' ≤ c && c ≤ 'Z') ||
  c = '_' ||
  (0x3041 ≤ c.toNat && c.toNat ≤ 0x3096) ||
  (0x309d ≤ c.toNat && c.toNat ≤ 0x309f) ||
  (0x30a1 ≤ c.toNat && c.toNat ≤ 0x30fa) ||
  (0x30fc ≤ c.toNat && c.toNat ≤ 0x30fe) ||
  (0x4e00 ≤ c.toNat && c.toNat ≤ 0x9fff)

/-- ASCII lower-casing of one character, the effect of Python `str.lower()`
on the alias and header strings used by the client. -/
def lowerChar (c : Char) : Char :=
  if 'A' ≤ c && c ≤ 'Z' then Char.ofNat (c.toNat + 32) else c

/-! ## List-of-characters string operations -/

/-- `needle` is a prefix of `hay` (character-wise). -/
def startsWithL : List Char → List Char → Bool
  | [], _ => true
  | _ :: _, [] => false
  | a :: as, b :: bs => a = b && startsWithL as bs

/-- `needle` occurs as a contiguous substring of `hay` (Python `in`). -/
def containsL (needle : List Char) : List Char → Bool
  | [] => startsWithL needle []
  | cs@(_ :: rest) => startsWithL needle cs || containsL needle rest

/-- `hay` ends with `needle` (Python `str.endswith`). -/
def endsWithL (needle hay : List Char) : Bool :=
  startsWithL needle.reverse hay.reverse

/-- Replace every occurrence of `needle` (non-empty) by `repl`, left to
right, as Python `str.replace` does; fuelled by the input length. -/
def replaceLAux (needle repl : List Char) : Nat → List Char → List Char
  | 0, cs => cs
  | _, [] => []
  | fuel + 1, cs@(c :: rest) =>
    if needle ≠ [] && startsWithL needle cs then
      repl ++ replaceLAux needle repl fuel (cs.drop needle.length)
    else
      c :: replaceLAux needle repl fuel rest

/-- Split on every occurrence of `sep` (non-empty), as Python `str.split(sep)`. -/
def splitLAux (sep : List Char) : Nat → List Char → List Char → List (List Char)
  | 0, acc, cs => [acc.reverse ++ cs]
  | _, acc, [] => [acc.reverse]
  | fuel + 1, acc, cs@(c :: rest) =>
    if startsWithL sep cs then
      acc.reverse :: splitLAux sep fuel [] (cs.drop sep.length)
    else
      splitLAux sep fuel (c :: acc) rest

/-- Python `str.replace` on `String`. -/
def pyReplace (s needle repl : String) : String :=
  ⟨replaceLAux needle.data repl.data s.data.length s.data⟩

/-- Python `str.split(sep)` on `String`. -/
def pySplit (s sep : String) : List String :=
  (splitLAux sep.data (s.data.length + 1) [] s.data).map (fun cs => ⟨cs⟩)

/-- Python `str.strip()`. -/
def pyStrip (s : String) : String :=
  ⟨((s.data.dropWhile isPySpace).reverse.dropWhile isPySpace).reverse⟩

/-- Python `str.lower()` (ASCII range). -/
def pyLower (s : String) : String := ⟨s.data.map lowerChar⟩

/-- Python `in` on strings. -/
def pyContains (hay needle : String) : Bool := containsL needle.data hay.data

/-- Python `str.endswith`. -/
def pyEndsWith (hay needle : String) : Bool := endsWithL needle.data hay.data

/-- Value of a non-empty digit list, base 10. -/
def digitsVal (ds : List Char) : Nat :=
  ds.foldl (fun acc c => acc * 10 + ((pyDigitVal c).getD 0)) 0

/-- Continuation of `pyIntDigits` after at least one digit was read. -/
def pyIntGo : Nat → Nat → List Char → Option Nat
  | _, acc, [] => some acc
  | 0, _, _ => none
  | fuel + 1, acc, '_' :: c :: rest =>
    match pyDigitVal c with
    | none => none
    | some d => pyIntGo fuel (acc * 10 + d) rest
  | _ + 1, _, ['_'] => none
  | fuel + 1, acc, c :: rest =>
    match pyDigitVal c with
    | none => none
    | some d => pyIntGo fuel (acc * 10 + d) rest

/-- Digit run of Python `int()`: digits optionally separated by single
underscores, consuming the whole remaining input. -/
def pyIntDigits : Nat → List Char → Option Nat
  | _, [] => none
  | 0, _ => none
  | fuel + 1, c :: rest =>
    match pyDigitVal c with
    | none => none
    | some d => pyIntGo fuel d rest

/-- Python `int(s)` (base 10): strip whitespace, optional sign, digit run.
Returns `none` where Python raises `ValueError`. -/
def pyIntParse (s : String) : Option Int :=
  let cs := (pyStrip s).data
  match cs with
  | '+' :: rest => (pyIntDigits (rest.length + 1) rest).map (fun n => (n : Int))
  | '-' :: rest => (pyIntDigits (rest.length + 1) rest).map (fun n => -(n : Int))
  | _ => (pyIntDigits (cs.length + 1) cs).map (fun n => (n : Int))

/-! ## Data model (order.py dataclasses, JSON values, HTTP world) -/

/-- A JSON value as produced by Python `json.loads`. -/
inductive JValue where
  | null : JValue
  | bool : Bool → JValue
  | num : Int → JValue
  | str : String → JValue
  | arr : List JValue → JValue
  | obj : List (String × JValue) → JValue

/-- Dictionary lookup on a parsed JSON object: with duplicate keys,
`json.loads` keeps the last occurrence. -/
def lookupLast (fields : List (String × JValue)) (k : String) : Option JValue :=
  (fields.reverse.find? (fun p => p.1 = k)).map (fun p => p.2)

/-- One cookie as stored in the httpx cookie jar and in the session file. -/
structure Cookie where
  name : String
  value : String
  domain : String
  path : String
deriving DecidableEq

/-- `client.cookies.set(name, value, domain=..., path=...)`: replaces a
cookie with the same (name, domain, path), otherwise appends. -/
def setCookie (jar : List Cookie) (c : Cookie) : List Cookie :=
  if jar.any (fun x => x.name = c.name && x.domain = c.domain && x.path = c.path) then
    jar.map (fun x =>
      if x.name = c.name && x.domain = c.domain && x.path = c.path then c else x)
  else
    jar ++ [c]

/-- Python exceptions that can escape the order-client functions. -/
inductive PyExn where
  | runtimeError : String → PyExn
  | valueError : String → PyExn
  | httpStatusError : PyExn
  | httpError : PyExn
  | attributeError : PyExn
  | typeError : PyExn
deriving DecidableEq

/-- Process environment: `os.getenv` sources for the three credentials. -/
structure Env where
  bento_company_cd : Option String
  bento_user_cd : Option String
  bento_password : Option String

/-- Mutable world outside the HTTP transport: the on-disk cookie file and
the current time.  `cookieFile = none` is a missing file; `some none` is a
file whose text fails to parse as JSON; `some (some j)` parses to `j`. -/
structure World where
  cookieFile : Option (Option JValue)
  now : String

/-- One recorded HTTP response: status, the `Location` header
(`""` when absent) and the body text. -/
structure HttpResp where
  status : Nat
  location : String
  text : String

/-- Form fields POSTed to `/` at login. -/
structure LoginForm where
  token : String
  companyCD : String
  userCD : String
  password : String

/-- Form fields POSTed to `/Order/CreateDetails`: the anti-forgery token
and the three slot-quantity fields `[0].数量`, `[1].数量`, `[2].数量`. -/
structure OrderForm where
  token : String
  q0 : String
  q1 : String
  q2 : String
deriving DecidableEq

/-- The upstream server and network. Each field describes the outcome of
one kind of request given the request payload and the cookies the client
would send; `none` models a transport-level `httpx.HTTPError`.
`postLogin` yields the cookies the server sets on the login POST. -/
structure Transport where
  probeOrder : List Cookie → Option HttpResp
  getRoot : List Cookie → Option HttpResp
  postLogin : LoginForm → List Cookie → Option (List Cookie)
  getOrderPage : String → List Cookie → Option HttpResp
  postOrder : String → OrderForm → List Cookie → Option HttpResp
  getMonthly : Nat → List Cookie → Option HttpResp

/-- httpx `Response.raise_for_status` succeeds exactly on 2xx. -/
def is2xx (status : Nat) : Bool := 200 ≤ status && status ≤ 299

/-- 注文結果 (dataclass `OrderResult`). -/
structure OrderResult where
  success : Bool
  message : String
  date : String
  menu_type : String
  quantity : Int
deriving DecidableEq

/-- 1 日分の注文状況 (dataclass `DayOrderStatus`); `orders` is a Python
dict, modelled as an insertion-ordered association list. -/
structure DayOrderStatus where
  date : String
  orders : List (String × Nat)
  holiday : Bool
  holiday_label : String
deriving DecidableEq

/-- Python dict assignment `d[k] = v`: update in place, else append. -/
def dictInsert (m : List (String × Nat)) (k : String) (v : Nat) : List (String × Nat) :=
  if m.any (fun p => p.1 = k) then
    m.map (fun p => if p.1 = k then (k, v) else p)
  else
    m ++ [(k, v)]

/-! ## Credential store and session store (`_get_credentials`,
`_save_cookies`, `_load_cookies`, `_is_session_valid`) -/

/-- The message of the `RuntimeError` raised for missing credentials. -/
def credsErrMsg : String :=
  "注文には認証情報が必要です。.env に BENTO_USER_CD と BENTO_PASSWORD を設定してください。"

/-- `_get_credentials`: company code defaults to `"000748"`; an unset or
empty user code or password raises `RuntimeError`. -/
def _get_credentials (env : Env) : Except PyExn (String × String × String) :=
  let company_cd := env.bento_company_cd.getD "000748"
  let user_cd := env.bento_user_cd.getD ""
  let password := env.bento_password.getD ""
  if user_cd = "" || password = "" then .error (.runtimeError credsErrMsg)
  else .ok (company_cd, user_cd, password)

/-- JSON serialization of one cookie in `_save_cookies`. -/
def cookieJson (c : Cookie) : JValue :=
  .obj [("name", .str c.name), ("value", .str c.value),
        ("domain", .str c.domain), ("path", .str c.path)]

/-- The JSON document `_save_cookies` writes to the cookie file. -/
def sessionJson (now : String) (jar : List Cookie) : JValue :=
  .obj [("saved_at", .str now), ("cookies", .arr (jar.map cookieJson))]

/-- Loop body of `_load_cookies` over `data["cookies"]`: sets each cookie
into the jar; a `KeyError` (missing member) is caught by the caller and
yields `(false, jar-so-far)`; a non-dict entry or non-string member raises
`TypeError`, which the source does not catch. -/
def loadEntries (jar : List Cookie) : List JValue → Except PyExn (Bool × List Cookie)
  | [] => .ok (true, jar)
  | e :: rest =>
    match e with
    | .obj fields =>
      match lookupLast fields "name", lookupLast fields "value",
            lookupLast fields "domain", lookupLast fields "path" with
      | some (.str n), some (.str v), some (.str d), some (.str p) =>
        loadEntries (setCookie jar ⟨n, v, d, p⟩) rest
      | none, _, _, _ => .ok (false, jar)
      | _, none, _, _ => .ok (false, jar)
      | _, _, none, _ => .ok (false, jar)
      | _, _, _, none => .ok (false, jar)
      | _, _, _, _ => .error .typeError
    | _ => .error .typeError

/-- `_load_cookies`: missing file or JSON parse failure yield
`(false, jar)` (the source catches `JSONDecodeError` and `KeyError`);
a top-level non-object raises `AttributeError` (`data.get` on a non-dict);
a `"cookies"` member that is neither a list nor empty-iterable raises
`TypeError` when its elements are subscripted. -/
def _load_cookies (file : Option (Option JValue)) (jar : List Cookie) :
    Except PyExn (Bool × List Cookie) :=
  match file with
  | none => .ok (false, jar)
  | some none => .ok (false, jar)
  | some (some data) =>
    match data with
    | .obj fields =>
      match lookupLast fields "cookies" with
      | none => .ok (true, jar)
      | some (.arr entries) => loadEntries jar entries
      | some (.str s) => if s = "" then .ok (true, jar) else .error .typeError
      | some (.obj f2) => if f2.isEmpty then .ok (true, jar) else .error .typeError
      | some _ => .error .typeError
    | _ => .error .attributeError

/-- `_is_session_valid`: probe `GET /Order` without following redirects;
200 is valid; a 3xx is invalid when the lower-cased `Location` is `/`,
ends with `/`, or contains `"login"`; other statuses and transport errors
are invalid. -/
def _is_session_valid (probe : Option HttpResp) : Bool :=
  match probe with
  | none => false
  | some resp =>
    if resp.status = 200 then true
    else if resp.status = 301 || resp.status = 302 || resp.status = 303 ||
            resp.status = 307 || resp.status = 308 then
      let location := pyLower resp.location
      if location = "/" || pyEndsWith location "/" || pyContains location "login" then
        false
      else true
    else false

/-! ## Token extractor (`_extract_token`) -/

/-- The literal `name="__RequestVerificationToken"` of the token regex. -/
def litNameTok : List Char := "name=\"__RequestVerificationToken\"".data

/-- The literal `value="` of the token regex. -/
def litValueEq : List Char := "value=\"".data

/-- Match `[^"]*"`: the capture up to the next double quote, which must
exist. -/
def captureQuoted (cs : List Char) : Option (String × List Char) :=
  let run := cs.takeWhile (fun c => c ≠ '"')
  match cs.drop run.length with
  | '"' :: rest => some (⟨run⟩, rest)
  | _ => none

/-- Backtracking for `\s+[^>]*value="([^"]*)"`: try the latest admissible
start position of `value="` first, as a greedy engine does. -/
def tokenTailFrom (cs : List Char) : Nat → Option String
  | 0 => none
  | p + 1 =>
    if startsWithL litValueEq (cs.drop (p + 1)) then
      match captureQuoted ((cs.drop (p + 1)).drop litValueEq.length) with
      | some (tok, _) => some tok
      | none => tokenTailFrom cs p
    else tokenTailFrom cs p

/-- Match `\s+[^>]*value="([^"]*)"` at the head of `cs`. -/
def tokenTail (cs : List Char) : Option String :=
  match cs with
  | [] => none
  | c :: _ =>
    if isPySpace c then tokenTailFrom cs ((cs.takeWhile (fun x => x ≠ '>')).length)
    else none

/-- `re.search` with the name-first token pattern. -/
def searchToken1 : List Char → Option String
  | [] => none
  | cs@(_ :: rest) =>
    if startsWithL litNameTok cs then
      match tokenTail (cs.drop litNameTok.length) with
      | some tok => some tok
      | none => searchToken1 rest
    else searchToken1 rest

/-- Does `name="__RequestVerificationToken"` start at some position
`1 ≤ p ≤ bound` preceded only by non-`>` characters? -/
def nameAfterFrom (cs : List Char) : Nat → Bool
  | 0 => false
  | p + 1 => startsWithL litNameTok (cs.drop (p + 1)) || nameAfterFrom cs p

/-- Match the value-first token pattern
`value="([^"]*)"\s+[^>]*name="__RequestVerificationToken"` at the head. -/
def token2At (cs : List Char) : Option String :=
  if startsWithL litValueEq cs then
    match captureQuoted (cs.drop litValueEq.length) with
    | some (tok, rest) =>
      match rest with
      | [] => none
      | c :: _ =>
        if isPySpace c &&
           nameAfterFrom rest ((rest.takeWhile (fun x => x ≠ '>')).length) then
          some tok
        else none
    | none => none
  else none

/-- `re.search` with the value-first token pattern. -/
def searchToken2 : List Char → Option String
  | [] => none
  | cs@(_ :: rest) =>
    match token2At cs with
    | some tok => some tok
    | none => searchToken2 rest

/-- `_extract_token`: first pattern, then the attribute-reversed pattern;
`none` is the `RuntimeError` case. -/
def _extract_token (html : String) : Option String :=
  match searchToken1 html.data with
  | some tok => some tok
  | none => searchToken2 html.data

/-- The message of the `RuntimeError` raised when no token is found. -/
def tokenErrMsg : String := "リクエスト検証トークンが取得できませんでした。"

/-! ## Order encoder (`MENU_TYPE_MAP`, `_resolve_menu_index`,
`_normalize_date`, the quantities array) -/

/-- メニュー種別 → インデックス (module-level alias table). -/
def MENU_TYPE_MAP : List (String × Nat) :=
  [("和風", 0), ("和風ランチ", 0), ("和風らんち", 0), ("wafu", 0),
   ("あいランチ", 1), ("あい", 1), ("ai", 1),
   ("その他", 2), ("other", 2)]

/-- Python `dict` membership / subscript on the alias table. -/
def mapLookup (m : List (String × Nat)) (k : String) : Option Nat :=
  (m.find? (fun p => p.1 = k)).map (fun p => p.2)

/-- インデックス → 表示名 with the `f"メニュー{idx}"` fallback of
`get_order_status` (`MENU_INDEX_NAME.get`). -/
def menuIndexName (idx : Nat) : String :=
  match [(0, "和風ランチ"), (1, "あいランチ"), (2, "その他")].find? (fun p => p.1 = idx) with
  | some p => p.2
  | none => "メニュー" ++ Nat.repr idx

/-- The `ValueError` message of `_resolve_menu_index`. -/
def resolveErrMsg (menu_type : String) : String :=
  "不明なメニュー種別: \x27" ++ menu_type ++ "\x27. 使用可能: " ++
  String.intercalate ", " (MENU_TYPE_MAP.map (fun p => p.1)) ++ " または 0/1/2"

/-- `_resolve_menu_index`: look up the stripped-and-lowered string in the
alias table, falling back to the stripped string, then to `int()` in
`{0,1,2}`; otherwise raise `ValueError`. -/
def _resolve_menu_index (menu_type : String) : Except PyExn Nat :=
  let key :=
    if (mapLookup MENU_TYPE_MAP (pyLower (pyStrip menu_type))).isSome then
      pyLower (pyStrip menu_type)
    else pyStrip menu_type
  match mapLookup MENU_TYPE_MAP key with
  | some i => .ok i
  | none =>
    match pyIntParse menu_type with
    | some idx =>
      if idx = 0 || idx = 1 || idx = 2 then .ok idx.toNat
      else .error (.valueError (resolveErrMsg menu_type))
    | none => .error (.valueError (resolveErrMsg menu_type))

/-- The `ValueError` message of `_normalize_date`. -/
def dateErrMsg (date_str : String) : String :=
  "日付形式が不正です: \x27" ++ date_str ++
  "\x27. YYYY-MM-DD または YYYY/MM/DD を使用してください。"

/-- `_normalize_date`: `-` → `/`, then require exactly three parts with a
4-character year. -/
def _normalize_date (date_str : String) : Except PyExn String :=
  let normalized := pyReplace date_str "-" "/"
  let parts := pySplit normalized "/"
  if parts.length ≠ 3 || (parts.headD "").length ≠ 4 then
    .error (.valueError (dateErrMsg date_str))
  else .ok normalized

/-- The three-slot quantities array of `place_order`:
`quantities = [0, 0, 0]; quantities[menu_index] = quantity`. -/
def encodeQuantities (menu_index : Nat) (quantity : Int) : List Int :=
  ([0, 0, 0] : List Int).set menu_index quantity

/-- The form POSTed to the order endpoint: token plus the three slot
fields as decimal strings (`str(quantities[i])`). -/
def mkOrderForm (order_token : String) (quantities : List Int) : OrderForm :=
  ⟨order_token, toString (quantities.getD 0 0), toString (quantities.getD 1 0),
   toString (quantities.getD 2 0)⟩

/-! ## Session manager (`_login`) and order client (`place_order`,
`cancel_order`) -/

/-- Fresh-login path of `_login`: credentials, `GET /`, token extraction,
credential POST, then check the jar for the `.ASPXAUTH` cookie; on
success persist the session (`_save_cookies`), else report `False`. -/
def freshLogin (t : Transport) (env : Env) (w : World) (jar : List Cookie) :
    Except PyExn (Bool × World × List Cookie) :=
  match _get_credentials env with
  | .error e => .error e
  | .ok (company_cd, user_cd, password) =>
    match t.getRoot jar with
    | none => .error .httpError
    | some login_resp =>
      if is2xx login_resp.status then
        match _extract_token login_resp.text with
        | none => .error (.runtimeError tokenErrMsg)
        | some login_token =>
          match t.postLogin ⟨login_token, company_cd, user_cd, password⟩ jar with
          | none => .error .httpError
          | some setCs =>
            let jar2 := setCs.foldl setCookie jar
            if jar2.any (fun c => c.name = ".ASPXAUTH") then
              .ok (true, { w with cookieFile := some (some (sessionJson w.now jar2)) }, jar2)
            else .ok (false, w, jar2)
      else .error .httpStatusError

/-- `_login`: unless `force`, try the saved cookies and the validity
probe first; fall through to a fresh login otherwise. -/
def _login (t : Transport) (env : Env) (force : Bool) (w : World) (jar : List Cookie) :
    Except PyExn (Bool × World × List Cookie) :=
  if force then freshLogin t env w jar
  else
    match _load_cookies w.cookieFile jar with
    | .error e => .error e
    | .ok (loaded, jar1) =>
      if loaded && _is_session_valid (t.probeOrder jar1) then .ok (true, w, jar1)
      else freshLogin t env w jar1

/-- Failure message of `place_order` when `_login` reports `False`. -/
def loginFailMsg : String := "ログインに失敗しました。認証情報を確認してください。"

/-- Message of the `RuntimeError` raised by the status operations when
`_login` reports `False`. -/
def loginFailStatusMsg : String := "ログインに失敗しました。"

/-- The inline `{0: ..., 1: ..., 2: ...}.get(menu_index, menu_type)` of
`place_order`. -/
def placeMenuName (menu_index : Nat) (menu_type : String) : String :=
  match menu_index with
  | 0 => "和風ランチ"
  | 1 => "あいランチ"
  | 2 => "その他"
  | _ => menu_type

/-- The cancellation message of `place_order` (`quantity == 0`). -/
def cancelledMsg (date menu_name : String) : String :=
  date ++ " の " ++ menu_name ++ " の注文を取り消しました。"

/-- The placement message of `place_order` (`quantity != 0`). -/
def placedMsg (date menu_name : String) (quantity : Int) : String :=
  date ++ " の " ++ menu_name ++ " を " ++ toString quantity ++ " 個注文しました。"

/-- `place_order`: resolve the slot and date, build the quantities array,
authenticate (structured failure on login failure), fetch the order page,
extract the token, POST the form, and report the result. -/
def place_order (t : Transport) (env : Env) (w : World) (date menu_type : String)
    (quantity : Int) : Except PyExn (OrderResult × World) :=
  match _resolve_menu_index menu_type with
  | .error e => .error e
  | .ok menu_index =>
    match _normalize_date date with
    | .error e => .error e
    | .ok order_date =>
      let quantities := encodeQuantities menu_index quantity
      match _login t env false w [] with
      | .error e => .error e
      | .ok (ok, w1, jar) =>
        if ok then
          match t.getOrderPage order_date jar with
          | none => .error .httpError
          | some order_resp =>
            if is2xx order_resp.status then
              match _extract_token order_resp.text with
              | none => .error (.runtimeError tokenErrMsg)
              | some order_token =>
                match t.postOrder order_date (mkOrderForm order_token quantities) jar with
                | none => .error .httpError
                | some post_resp =>
                  if is2xx post_resp.status then
                    let menu_name := placeMenuName menu_index menu_type
                    let msg :=
                      if quantity = 0 then cancelledMsg date menu_name
                      else placedMsg date menu_name quantity
                    .ok (⟨true, msg, date, menu_name, quantity⟩, w1)
                  else .error .httpStatusError
            else .error .httpStatusError
        else .ok (⟨false, loginFailMsg, date, menu_type, quantity⟩, w1)

/-- `cancel_order`: `place_order` with quantity 0. -/
def cancel_order (t : Transport) (env : Env) (w : World) (date menu_type : String) :
    Except PyExn (OrderResult × World) :=
  place_order t env w date menu_type 0

/-! ## Status parser (`get_order_status`, `get_monthly_orders`) -/

/-- The literal `id="[` of the previous-quantity regex. -/
def litIdEq : List Char := "id=\"[".data

/-- The literal `].変更前数量"` of the previous-quantity regex. -/
def litPrevQty : List Char := "].変更前数量\"".data

/-- Match `id="\[(\d+)\]\.変更前数量"\s*value="(\d+)"` at the head of
`cs`, returning slot index, quantity and the remainder. -/
def statusMatchAt (cs : List Char) : Option (Nat × Nat × List Char) :=
  if startsWithL litIdEq cs then
    let cs1 := cs.drop litIdEq.length
    let ds := cs1.takeWhile isDigitChar
    if ds.isEmpty then none
    else
      let cs2 := cs1.drop ds.length
      if startsWithL litPrevQty cs2 then
        let cs3 := (cs2.drop litPrevQty.length).dropWhile isPySpace
        if startsWithL litValueEq cs3 then
          let cs4 := cs3.drop litValueEq.length
          let qs := cs4.takeWhile isDigitChar
          if qs.isEmpty then none
          else
            match cs4.drop qs.length with
            | '"' :: rest => some (digitsVal ds, digitsVal qs, rest)
            | _ => none
        else none
      else none
  else none

/-- `re.finditer` scan for the previous-quantity pattern. -/
def statusScan : Nat → List Char → List (Nat × Nat)
  | 0, _ => []
  | _, [] => []
  | fuel + 1, cs@(_ :: rest) =>
    match statusMatchAt cs with
    | some (idx, qty, after) => (idx, qty) :: statusScan fuel after
    | none => statusScan fuel rest

/-- The order-detail page scan of `get_order_status`: positive previous
quantities keyed by the slot display name. -/
def parseStatusOrders (html : String) : List (String × Nat) :=
  (statusScan html.data.length html.data).foldl
    (fun orders p =>
      if p.2 > 0 then dictInsert orders (menuIndexName p.1) p.2 else orders) []

/-- `get_order_status`: normalize the date, authenticate (raising
`RuntimeError` on login failure), fetch the order-detail page, and build
a `DayOrderStatus` with default holiday fields. -/
def get_order_status (t : Transport) (env : Env) (w : World) (date : String) :
    Except PyExn (DayOrderStatus × World) :=
  match _normalize_date date with
  | .error e => .error e
  | .ok order_date =>
    match _login t env false w [] with
    | .error e => .error e
    | .ok (ok, w1, jar) =>
      if ok then
        match t.getOrderPage order_date jar with
        | none => .error .httpError
        | some resp =>
          if is2xx resp.status then
            .ok (⟨date, parseStatusOrders resp.text, false, ""⟩, w1)
          else .error .httpStatusError
      else .error (.runtimeError loginFailStatusMsg)

/-- First-cell pattern `re.match(r"(\d+)\(.\)", day_text)` of the monthly
table: a leading digit run, then one character (not a newline) in
parentheses. -/
def parseDayCell (s : String) : Option Nat :=
  let cs := s.data
  let ds := cs.takeWhile isDigitChar
  if ds.isEmpty then none
  else
    match cs.drop ds.length with
    | '(' :: c :: ')' :: _ => if c = '\n' then none else some (digitsVal ds)
    | _ => none

/-- The three alternatives `らんち|ランチ|その他` of the monthly order
pattern; at most one can match at a given position. -/
def altSuffixes : List (List Char) := ["らんち".data, "ランチ".data, "その他".data]

/-- Match one alternative at the head of `cs`. -/
def matchAlt (cs : List Char) : Option (List Char × List Char) :=
  match altSuffixes.find? (fun a => startsWithL a cs) with
  | some a => some (a, cs.drop a.length)
  | none => none

/-- Match `\s*(\d+)個` at the head of `cs`. -/
def qtyAfter (cs : List Char) : Option (Nat × List Char) :=
  let cs1 := cs.dropWhile isPySpace
  let qs := cs1.takeWhile isDigitChar
  if qs.isEmpty then none
  else
    match cs1.drop qs.length with
    | '個' :: rest => some (digitsVal qs, rest)
    | _ => none

/-- Backtracking for `([\w]+(?:らんち|ランチ|その他))\s*(\d+)個`: try the
longest word-character prefix first, as a greedy engine does; the caller
passes the length of the maximal word run. -/
def monthNameFrom (cs : List Char) : Nat → Option (String × Nat × List Char)
  | 0 => none
  | k + 1 =>
    match matchAlt (cs.drop (k + 1)) with
    | some (suf, rest1) =>
      match qtyAfter rest1 with
      | some (q, rest2) => some (⟨cs.take (k + 1) ++ suf⟩, q, rest2)
      | none => monthNameFrom cs k
    | none => monthNameFrom cs k

/-- Match the monthly order pattern at the head of `cs`. -/
def monthTokenAt (cs : List Char) : Option (String × Nat × List Char) :=
  monthNameFrom cs ((cs.takeWhile isWordChar).length)

/-- `re.finditer` scan for the monthly order pattern. -/
def monthScan : Nat → List Char → List (String × Nat)
  | 0, _ => []
  | _, [] => []
  | fuel + 1, cs@(_ :: rest) =>
    match monthTokenAt cs with
    | some (name, qty, after) => (name, qty) :: monthScan fuel after
    | none => monthScan fuel rest

/-- Second-cell scan of the monthly table: collect `"<name><qty>個"`
tokens, renaming any name containing `和風` to `和風ランチ` and keeping
positive quantities. -/
def monthOrders (order_text : String) : List (String × Nat) :=
  (monthScan order_text.data.length order_text.data).foldl
    (fun orders p =>
      let name := if pyContains p.1 "和風" then "和風ランチ" else p.1
      if p.2 > 0 then dictInsert orders name p.2 else orders) []

/-- `f"{n:02d}"` for the month and day numbers. -/
def pad2 (n : Nat) : String := if n < 10 then "0" ++ Nat.repr n else Nat.repr n

/-- Loop body of `get_monthly_orders` over one table row (the row's cell
texts): skip rows with fewer than two cells or a non-matching first cell;
a second cell containing `休業日` yields a holiday record with empty
orders, otherwise the quantity tokens are collected. -/
def processMonthRow (year month : Nat) (cells : List String) : Option DayOrderStatus :=
  if cells.length < 2 then none
  else
    let day_text := cells.headD ""
    let order_text := (cells.drop 1).headD ""
    match parseDayCell day_text with
    | none => none
    | some day =>
      let date_str := Nat.repr year ++ "-" ++ pad2 month ++ "-" ++ pad2 day
      if pyContains order_text "休業日" then
        some ⟨date_str, [], true, order_text⟩
      else
        some ⟨date_str, monthOrders order_text, false, ""⟩

/-- The full row loop of `get_monthly_orders`. -/
def parseMonthlyRows (year month : Nat) (rows : List (List String)) :
    List DayOrderStatus :=
  rows.filterMap (processMonthRow year month)

/-- `get_monthly_orders`: authenticate (raising `RuntimeError` on login
failure), fetch the monthly page, and parse its table rows.  The
BeautifulSoup step that turns the response HTML into rows of cell texts
is a library call outside the embedding and is passed as `soup`. -/
def get_monthly_orders (t : Transport) (env : Env) (w : World) (year month : Nat)
    (soup : String → List (List String)) :
    Except PyExn (List DayOrderStatus × World) :=
  match _login t env false w [] with
  | .error e => .error e
  | .ok (ok, w1, jar) =>
    if ok then
      match t.getMonthly month jar with
      | none => .error .httpError
      | some resp =>
        if is2xx resp.status then
          .ok (parseMonthlyRows year month (soup resp.text), w1)
        else .error .httpStatusError
    else .error (.runtimeError loginFailStatusMsg)

/-! ## Concrete scenarios (recorded transports, environments, worlds) -/

/-- A server page carrying an anti-forgery token. -/
def pageHtml : String := "<input name=\"__RequestVerificationToken\" value=\"tok\" />"

/-- Environment with no user code and no password set. -/
def envNoCreds : Env := ⟨some "000748", none, none⟩

/-- Environment with full credentials. -/
def envFull : Env := ⟨none, some "user1", some "pw1"⟩

/-- A stored session file holding one authentication cookie. -/
def savedSessionJson : JValue :=
  .obj [("saved_at", .str "2026-02-01T08:00:00"),
        ("cookies", .arr [.obj [("name", .str ".ASPXAUTH"), ("value", .str "c1"),
                                ("domain", .str "example.test"), ("path", .str "/")]])]

/-- World whose cookie file holds `savedSessionJson`. -/
def wSaved : World := ⟨some (some savedSessionJson), "2026-02-10T12:00:00"⟩

/-- World with no cookie file. -/
def wEmpty : World := ⟨none, "2026-02-10T12:00:00"⟩

/-- Recorded transport: the saved session validates (probe answers 200)
and all order endpoints succeed; the login POST sets no cookie. -/
def tValid : Transport :=
  ⟨fun _ => some ⟨200, "", ""⟩,
   fun _ => some ⟨200, "", pageHtml⟩,
   fun _ _ => some [],
   fun _ _ => some ⟨200, "", pageHtml⟩,
   fun _ _ _ => some ⟨200, "", ""⟩,
   fun _ _ => some ⟨200, "", ""⟩⟩

/-- Recorded transport: the probe redirects to the login page and the
login POST sets no authentication cookie, so every login fails. -/
def tNoAuth : Transport :=
  ⟨fun _ => some ⟨302, "/", ""⟩,
   fun _ => some ⟨200, "", pageHtml⟩,
   fun _ _ => some [],
   fun _ _ => some ⟨200, "", pageHtml⟩,
   fun _ _ _ => some ⟨200, "", ""⟩,
   fun _ _ => some ⟨200, "", ""⟩⟩

/-! ## Claims -/

/-- Modelled from the spec's words (for the refinement comparison of C1
only): HTTP 200 is valid; a 3xx is invalid exactly when the `Location`
targets the root path or contains the login substring; any other status
or a transport-level failure is invalid. -/
def sessionValidSpecRule (probe : Option HttpResp) : Bool :=
  match probe with
  | none => false
  | some resp =>
    if resp.status = 200 then true
    else if resp.status = 301 || resp.status = 302 || resp.status = 303 ||
            resp.status = 307 || resp.status = 308 then
      let location := pyLower resp.location
      if location = "/" || pyContains location "login" then false else true
    else false

/-- A cookie-entry member is absent or a JSON string: the shapes on which
the cookie loop either succeeds or hits only the caught `KeyError`. -/
def strOrMissing (fields : List (String × JValue)) (k : String) : Bool :=
  match lookupLast fields k with
  | none => true
  | some (.str _) => true
  | some _ => false

/-- A benign cookie entry: a JSON object whose `name`, `value`, `domain`
and `path` members are strings or absent. -/
def benignEntry : JValue → Bool
  | .obj fields =>
    strOrMissing fields "name" && strOrMissing fields "value" &&
    strOrMissing fields "domain" && strOrMissing fields "path"
  | _ => false

/-- A benign cookie file: missing, unparsable text, or a JSON object
whose `cookies` member is absent or an array of benign entries. -/
def benignCookieFile : Option (Option JValue) → Bool
  | none => true
  | some none => true
  | some (some (.obj fields)) =>
    match lookupLast fields "cookies" with
    | none => true
    | some (.arr entries) => entries.all benignEntry
    | some _ => false
  | some (some _) => false

/-- C1, counterexample: a 302 whose `Location` is `/Dashboard/` targets
neither the root path nor a login page, so the claimed rule calls the
session valid, but `_is_session_valid` reports it invalid (the source
also rejects any redirect target that merely ends with `/`). -/
theorem c1_counterexample :
    _is_session_valid (some ⟨302, "/Dashboard/", ""⟩) = false ∧
    sessionValidSpecRule (some ⟨302, "/Dashboard/", ""⟩) = true ∧
    pyLower "/Dashboard/" ≠ "/" ∧
    pyContains (pyLower "/Dashboard/") "login" = false := by
  refine ⟨rfl, rfl, by decide, rfl⟩

/-- C1, amended: the probe decides by: HTTP 200 ⇒ valid; HTTP 3xx ⇒
invalid exactly when the lower-cased `Location` ends with `/` (which
subsumes the root path) or contains the substring `login`, and valid for
any other redirect target; any other status, or a transport failure,
⇒ invalid. -/
theorem c1_amended :
    (∀ r : HttpResp, r.status = 200 → _is_session_valid (some r) = true) ∧
    (∀ r : HttpResp,
      (r.status = 301 ∨ r.status = 302 ∨ r.status = 303 ∨
       r.status = 307 ∨ r.status = 308) →
      (_is_session_valid (some r) = false ↔
        (pyEndsWith (pyLower r.location) "/" = true ∨
         pyContains (pyLower r.location) "login" = true))) ∧
    (∀ r : HttpResp, r.status ≠ 200 →
      ¬(r.status = 301 ∨ r.status = 302 ∨ r.status = 303 ∨
        r.status = 307 ∨ r.status = 308) →
      _is_session_valid (some r) = false) ∧
    _is_session_valid none = false := by
  refine ⟨?_, ?_, ?_, rfl⟩
  · intro r h
    simp [_is_session_valid, h]
  · intro r h3
    have h200 : r.status ≠ 200 := by rcases h3 with h | h | h | h | h <;> omega
    have hroot : pyLower r.location = "/" → pyEndsWith (pyLower r.location) "/" = true := by
      intro h; rw [h]; rfl
    simp only [_is_session_valid, h200, if_false]
    rcases h3 with h | h | h | h | h <;>
      · simp only [h]
        norm_num
        by_cases hA : pyLower r.location = "/" <;>
          by_cases hB : pyEndsWith (pyLower r.location) "/" = true <;>
            by_cases hC : pyContains (pyLower r.location) "login" = true <;>
              simp_all
  · intro r h200 h3
    simp only [_is_session_valid, h200, if_false]
    have : (decide (r.status = 301) || decide (r.status = 302) ||
            decide (r.status = 303) || decide (r.status = 307) ||
            decide (r.status = 308)) = false := by
      simp only [Bool.or_eq_false_iff, decide_eq_false_iff_not]
      omega
    simp [this]

/-- C1 witness: the amended rule applied to recorded responses. -/
theorem c1_amended_witness :
    _is_session_valid (some ⟨200, "", ""⟩) = true ∧
    (_is_session_valid (some ⟨302, "/Dashboard", ""⟩) = false ↔
      (pyEndsWith (pyLower "/Dashboard") "/" = true ∨
       pyContains (pyLower "/Dashboard") "login" = true)) ∧
    _is_session_valid (some ⟨500, "", ""⟩) = false :=
  ⟨c1_amended.1 ⟨200, "", ""⟩ rfl,
   c1_amended.2.1 ⟨302, "/Dashboard", ""⟩ (Or.inr (Or.inl rfl)),
   c1_amended.2.2.1 ⟨500, "", ""⟩ (by decide) (by decide)⟩

/-- The cookie loop never raises on benign entries. -/
theorem loadEntries_benign :
    ∀ (entries : List JValue) (jar : List Cookie),
      entries.all benignEntry = true →
      ∃ b jar2, loadEntries jar entries = .ok (b, jar2) := by
  intro entries
  induction entries with
  | nil => intro jar _; exact ⟨true, jar, rfl⟩
  | cons e rest ih =>
    intro jar h
    rw [List.all_cons, Bool.and_eq_true] at h
    obtain ⟨he, hrest⟩ := h
    cases e with
    | obj fields =>
      simp only [benignEntry, Bool.and_eq_true] at he
      obtain ⟨⟨⟨hen, hev⟩, hed⟩, hep⟩ := he
      cases hn : lookupLast fields "name" with
      | none => exact ⟨false, jar, by simp [loadEntries, hn]⟩
      | some vn =>
        rw [strOrMissing, hn] at hen
        cases vn <;> simp at hen
        case str sn =>
        cases hv : lookupLast fields "value" with
        | none => exact ⟨false, jar, by simp [loadEntries, hn, hv]⟩
        | some vv =>
          rw [strOrMissing, hv] at hev
          cases vv <;> simp at hev
          case str sv =>
          cases hd : lookupLast fields "domain" with
          | none => exact ⟨false, jar, by simp [loadEntries, hn, hv, hd]⟩
          | some vd =>
            rw [strOrMissing, hd] at hed
            cases vd <;> simp at hed
            case str sd =>
            cases hp : lookupLast fields "path" with
            | none => exact ⟨false, jar, by simp [loadEntries, hn, hv, hd, hp]⟩
            | some vp =>
              rw [strOrMissing, hp] at hep
              cases vp <;> simp at hep
              case str sp =>
              obtain ⟨b, jar2, hload⟩ := ih (setCookie jar ⟨sn, sv, sd, sp⟩) hrest
              exact ⟨b, jar2, by simp [loadEntries, hn, hv, hd, hp, hload]⟩
    | null => simp [benignEntry] at he
    | bool b => simp [benignEntry] at he
    | num n => simp [benignEntry] at he
    | str s => simp [benignEntry] at he
    | arr xs => simp [benignEntry] at he

/-- C4, counterexample: a cookie file whose text is the well-formed JSON
array `[]` makes `_load_cookies` raise `AttributeError` (only
`JSONDecodeError` and `KeyError` are caught), and the JSON object `{}` is
reported as a successfully loaded session (`True`), not a no-session
result. -/
theorem c4_counterexample :
    _load_cookies (some (some (.arr []))) [] = .error .attributeError ∧
    _load_cookies (some (some (.obj []))) [] = .ok (true, []) :=
  ⟨rfl, rfl⟩

/-- C4, amended: for a missing file, malformed text, or a well-formed
JSON *object* whose `cookies` member is absent or an array of objects
with string-or-missing members, the cookie-load step returns without
raising (missing file and malformed text yield the no-session result);
a well-formed JSON value of non-object top-level shape instead raises. -/
theorem c4_amended :
    ∀ (file : Option (Option JValue)) (jar : List Cookie),
      benignCookieFile file = true →
      (∃ b jar2, _load_cookies file jar = .ok (b, jar2)) ∧
      _load_cookies none jar = .ok (false, jar) ∧
      _load_cookies (some none) jar = .ok (false, jar) := by
  intro file jar hb
  refine ⟨?_, rfl, rfl⟩
  match file with
  | none => exact ⟨false, jar, rfl⟩
  | some none => exact ⟨false, jar, rfl⟩
  | some (some data) =>
    cases data with
    | obj fields =>
      cases hc : lookupLast fields "cookies" with
      | none => exact ⟨true, jar, by simp [_load_cookies, hc]⟩
      | some v =>
        cases v with
        | arr entries =>
          have hall : entries.all benignEntry = true := by
            have := hb
            rw [benignCookieFile, hc] at this
            exact this
          obtain ⟨b, jar2, hload⟩ := loadEntries_benign entries jar hall
          exact ⟨b, jar2, by simp [_load_cookies, hc, hload]⟩
        | null => rw [benignCookieFile, hc] at hb; exact absurd hb (by simp)
        | bool b => rw [benignCookieFile, hc] at hb; exact absurd hb (by simp)
        | num n => rw [benignCookieFile, hc] at hb; exact absurd hb (by simp)
        | str s => rw [benignCookieFile, hc] at hb; exact absurd hb (by simp)
        | obj f2 => rw [benignCookieFile, hc] at hb; exact absurd hb (by simp)
    | null => simp [benignCookieFile] at hb
    | bool b => simp [benignCookieFile] at hb
    | num n => simp [benignCookieFile] at hb
    | str s => simp [benignCookieFile] at hb
    | arr xs => simp [benignCookieFile] at hb

/-- C4 witness: the amended statement applied to the recorded session
file. -/
theorem c4_amended_witness :
    (∃ b jar2, _load_cookies (some (some savedSessionJson)) [] = .ok (b, jar2)) ∧
    _load_cookies none [] = .ok (false, []) ∧
    _load_cookies (some none) [] = .ok (false, []) :=
  c4_amended (some (some savedSessionJson)) [] (by rfl)

/-- C5, counterexample: `"00"` is not in the alias table and is not one
of the raw numerals `"0"`, `"1"`, `"2"`, yet `_resolve_menu_index`
accepts it (Python `int("00")` is 0), instead of failing. -/
theorem c5_counterexample :
    mapLookup MENU_TYPE_MAP "00" = none ∧
    "00" ≠ "0" ∧ "00" ≠ "1" ∧ "00" ≠ "2" ∧
    _resolve_menu_index "00" = .ok 0 :=
  ⟨rfl, by decide, by decide, by decide, rfl⟩

/-- C5, amended: every known alias resolves to its fixed slot index,
case-insensitively (shown in three case variants for the Latin aliases),
and the raw numerals `"0"`, `"1"`, `"2"` resolve to themselves; every
string whose stripped (and lowered) form is not in the alias table and
that Python `int()` does not parse to 0, 1 or 2 fails with the
`ValueError` of `_resolve_menu_index`. -/
theorem c5_amended :
    (_resolve_menu_index "和風" = .ok 0 ∧ _resolve_menu_index "和風ランチ" = .ok 0 ∧
     _resolve_menu_index "和風らんち" = .ok 0 ∧ _resolve_menu_index "wafu" = .ok 0 ∧
     _resolve_menu_index "WAFU" = .ok 0 ∧ _resolve_menu_index "Wafu" = .ok 0 ∧
     _resolve_menu_index "あいランチ" = .ok 1 ∧ _resolve_menu_index "あい" = .ok 1 ∧
     _resolve_menu_index "ai" = .ok 1 ∧ _resolve_menu_index "AI" = .ok 1 ∧
     _resolve_menu_index "Ai" = .ok 1 ∧
     _resolve_menu_index "その他" = .ok 2 ∧ _resolve_menu_index "other" = .ok 2 ∧
     _resolve_menu_index "OTHER" = .ok 2 ∧ _resolve_menu_index "Other" = .ok 2 ∧
     _resolve_menu_index "0" = .ok 0 ∧ _resolve_menu_index "1" = .ok 1 ∧
     _resolve_menu_index "2" = .ok 2) ∧
    (∀ s : String,
      mapLookup MENU_TYPE_MAP (pyLower (pyStrip s)) = none →
      mapLookup MENU_TYPE_MAP (pyStrip s) = none →
      (∀ k : Int, pyIntParse s = some k → ¬(k = 0 ∨ k = 1 ∨ k = 2)) →
      _resolve_menu_index s = .error (.valueError (resolveErrMsg s))) := by
  constructor
  · exact ⟨rfl, rfl, rfl, rfl, rfl, rfl, rfl, rfl, rfl, rfl, rfl, rfl, rfl,
           rfl, rfl, rfl, rfl, rfl⟩
  · intro s h1 h2 h3
    rw [_resolve_menu_index]
    simp only [h1, Option.isSome_none, Bool.false_eq_true, if_false, h2]
    cases hint : pyIntParse s with
    | none => rfl
    | some k =>
      have hk := h3 k hint
      have hk0 : ¬(k = 0) := fun h => hk (Or.inl h)
      have hk1 : ¬(k = 1) := fun h => hk (Or.inr (Or.inl h))
      have hk2 : ¬(k = 2) := fun h => hk (Or.inr (Or.inr h))
      simp [hk0, hk1, hk2]

/-- C5 witness: the amended failure case applied to a concrete unknown
string. -/
theorem c5_amended_witness :
    _resolve_menu_index "unknown" = .error (.valueError (resolveErrMsg "unknown")) :=
  c5_amended.2 "unknown" rfl rfl
    (by
      intro k hk
      rw [show pyIntParse "unknown" = none from rfl] at hk
      exact Option.noConfusion hk)

/-- C6: for every slot `s < 3` and quantity `q ≥ 0`, the quantities
array of `place_order` has length 3, carries `q` at `s` and `0` at the
two other slots (so at most one slot is non-zero), and the POSTed form
consists of exactly these three slot fields as decimal strings;
`encode(1, 2) = [0, 2, 0]`. -/
theorem c6_encode :
    ∀ (s : Nat) (q : Int), s < 3 → 0 ≤ q →
      (encodeQuantities s q).length = 3 ∧
      (encodeQuantities s q).getD s 0 = q ∧
      (∀ j, j < 3 → j ≠ s → (encodeQuantities s q).getD j 0 = 0) ∧
      (∀ j k, j < 3 → k < 3 → (encodeQuantities s q).getD j 0 ≠ 0 →
        (encodeQuantities s q).getD k 0 ≠ 0 → j = k) ∧
      (∀ tok, [(mkOrderForm tok (encodeQuantities s q)).q0,
               (mkOrderForm tok (encodeQuantities s q)).q1,
               (mkOrderForm tok (encodeQuantities s q)).q2] =
        (encodeQuantities s q).map toString) ∧
      encodeQuantities 1 2 = [0, 2, 0] := by
  intro s q hs _
  interval_cases s <;> refine ⟨rfl, rfl, ?_, ?_, fun tok => rfl, rfl⟩ <;>
    first
    | (intro j hj hne
       interval_cases j <;> first | rfl | exact absurd rfl hne)
    | (intro j k hj hk hj2 hk2
       interval_cases j <;> interval_cases k <;>
         first | rfl | exact absurd rfl hj2 | exact absurd rfl hk2)

/-- C6 witness: slot 1 with quantity 2 encodes to `[0, 2, 0]`. -/
theorem c6_encode_witness :
    encodeQuantities 1 2 = [0, 2, 0] ∧ (encodeQuantities 1 2).getD 1 0 = 2 :=
  ⟨(c6_encode 1 2 (by decide) (by decide)).2.2.2.2.2,
   (c6_encode 1 2 (by decide) (by decide)).2.1⟩

/-- C7: for year 2026 and month 2, the row `"10(火)"` /
`"和風らんち　1個あいランチ　2個"` parses to the 2026-02-10 status with
orders 和風ランチ ↦ 1 and あいランチ ↦ 2 and no holiday; and every row
whose second cell contains `休業日` yields a holiday record with empty
orders, whatever else the cell contains. -/
theorem c7_monthly_rows :
    processMonthRow 2026 2 ["10(火)", "和風らんち　1個あいランチ　2個"] =
      some ⟨"2026-02-10", [("和風ランチ", 1), ("あいランチ", 2)], false, ""⟩ ∧
    (∀ (y m : Nat) (cells : List String) (st : DayOrderStatus),
      processMonthRow y m cells = some st →
      pyContains ((cells.drop 1).headD "") "休業日" = true →
      st.holiday = true ∧ st.orders = [] ∧
      st.holiday_label = (cells.drop 1).headD "") := by
  refine ⟨rfl, ?_⟩
  intro y m cells st h hhol
  rw [processMonthRow] at h
  by_cases hlen : cells.length < 2
  · simp [hlen] at h
  · simp only [hlen, if_false] at h
    cases hday : parseDayCell (cells.headD "") with
    | none => rw [hday] at h; exact Option.noConfusion h
    | some day =>
      rw [hday, hhol] at h
      simp only [if_true] at h
      simp only [Option.some.injEq] at h
      subst h
      exact ⟨rfl, rfl, rfl⟩

/-- C7 witness: a holiday row with extra text in the second cell. -/
theorem c7_monthly_rows_witness :
    (⟨"2026-02-11", [], true, "休業日（祝日）"⟩ : DayOrderStatus).holiday = true ∧
    (⟨"2026-02-11", [], true, "休業日（祝日）"⟩ : DayOrderStatus).orders = [] ∧
    (⟨"2026-02-11", [], true, "休業日（祝日）"⟩ : DayOrderStatus).holiday_label =
      (["11(水)", "休業日（祝日）"].drop 1).headD "" :=
  c7_monthly_rows.2 2026 2 ["11(水)", "休業日（祝日）"]
    ⟨"2026-02-11", [], true, "休業日（祝日）"⟩ rfl rfl

/-- C8: whenever `get_order_status` returns a `DayOrderStatus`, its
holiday flag is `false` and its holiday label is empty — the single-day
operation performs no holiday detection. -/
theorem c8_day_status_no_holiday :
    ∀ (t : Transport) (env : Env) (w : World) (date : String)
      (st : DayOrderStatus) (w2 : World),
      get_order_status t env w date = .ok (st, w2) →
      st.holiday = false ∧ st.holiday_label = "" := by
  intro t env w date st w2 h
  rw [get_order_status] at h
  repeat' split at h
  all_goals try exact Except.noConfusion h
  injection h with h1
  injection h1 with hst hw
  subst hst
  exact ⟨rfl, rfl⟩

/-- C8 witness: a full recorded run of `get_order_status`. -/
theorem c8_day_status_witness :
    (⟨"2026-02-10", [], false, ""⟩ : DayOrderStatus).holiday = false ∧
    (⟨"2026-02-10", [], false, ""⟩ : DayOrderStatus).holiday_label = "" :=
  c8_day_status_no_holiday tValid envNoCreds wSaved "2026-02-10"
    ⟨"2026-02-10", [], false, ""⟩ wSaved rfl

/-- A fresh login that reports `False` leaves the world unchanged: the
cookie save is guarded by the `.ASPXAUTH` check. -/
theorem freshLogin_false_keeps_world :
    ∀ t env w jar w2 jar2,
      freshLogin t env w jar = .ok (false, w2, jar2) → w2 = w := by
  intro t env w jar w2 jar2 h
  simp only [freshLogin] at h
  repeat' split at h
  all_goals
    first
    | exact Except.noConfusion h
    | (injection h with h1
       injection h1 with hb hrest
       first
       | exact Bool.noConfusion hb
       | (injection hrest with hw hj; exact hw.symm))

/-- C9: when `_login` reports `False` (no authentication cookie after the
credential POST), the persisted session file is unchanged — a failed
login never overwrites a previously stored session. -/
theorem c9_failed_login_keeps_file :
    ∀ t env force w jar w2 jar2,
      _login t env force w jar = .ok (false, w2, jar2) →
      w2.cookieFile = w.cookieFile := by
  intro t env force w jar w2 jar2 h
  rw [_login] at h
  split at h
  · rw [freshLogin_false_keeps_world _ _ _ _ _ _ h]
  · split at h
    · exact Except.noConfusion h
    · split at h
      · injection h with h1
        injection h1 with hb _
        exact Bool.noConfusion hb
      · rw [freshLogin_false_keeps_world _ _ _ _ _ _ h]

/-- C9 witness: a recorded failed login leaves the cookie file as it
was. -/
theorem c9_failed_login_witness : wEmpty.cookieFile = wEmpty.cookieFile :=
  c9_failed_login_keeps_file tNoAuth envFull false wEmpty [] wEmpty [] rfl

/-- C2, counterexample: with a recorded transport on which the login
fails (no `.ASPXAUTH` cookie after the credential POST), the status
operations raise `RuntimeError` instead of returning a structured
failure. -/
theorem c2_counterexample :
    get_order_status tNoAuth envFull wEmpty "2026-02-10" =
      .error (.runtimeError loginFailStatusMsg) ∧
    get_monthly_orders tNoAuth envFull wEmpty 2026 2 (fun _ => []) =
      .error (.runtimeError loginFailStatusMsg) :=
  ⟨rfl, rfl⟩

/-- C2, amended: on authentication failure, `place_order` and
`cancel_order` return a structured failed result (success flag and
message) without raising, while `get_order_status` and
`get_monthly_orders` raise `RuntimeError("ログインに失敗しました。")`
instead. -/
theorem c2_amended :
    ∀ (t : Transport) (env : Env) (w : World) (date menu_type : String) (q : Int)
      (i : Nat) (od : String) (w1 : World) (jar1 : List Cookie) (y m : Nat)
      (soup : String → List (List String)),
      _resolve_menu_index menu_type = .ok i →
      _normalize_date date = .ok od →
      _login t env false w [] = .ok (false, w1, jar1) →
      place_order t env w date menu_type q =
        .ok (⟨false, loginFailMsg, date, menu_type, q⟩, w1) ∧
      cancel_order t env w date menu_type =
        .ok (⟨false, loginFailMsg, date, menu_type, 0⟩, w1) ∧
      get_order_status t env w date = .error (.runtimeError loginFailStatusMsg) ∧
      get_monthly_orders t env w y m soup = .error (.runtimeError loginFailStatusMsg) := by
  intro t env w date menu_type q i od w1 jar1 y m soup hres hnorm hlog
  refine ⟨?_, ?_, ?_, ?_⟩
  · simp [place_order, hres, hnorm, hlog]
  · simp [cancel_order, place_order, hres, hnorm, hlog]
  · simp [get_order_status, hnorm, hlog]
  · simp [get_monthly_orders, hlog]

/-- C2 witness: the amended statement on the recorded failing
transport. -/
theorem c2_amended_witness :
    place_order tNoAuth envFull wEmpty "2026-02-10" "和風" 5 =
      .ok (⟨false, loginFailMsg, "2026-02-10", "和風", 5⟩, wEmpty) ∧
    cancel_order tNoAuth envFull wEmpty "2026-02-10" "和風" =
      .ok (⟨false, loginFailMsg, "2026-02-10", "和風", 0⟩, wEmpty) ∧
    get_order_status tNoAuth envFull wEmpty "2026-02-10" =
      .error (.runtimeError loginFailStatusMsg) ∧
    get_monthly_orders tNoAuth envFull wEmpty 2026 2 (fun _ => []) =
      .error (.runtimeError loginFailStatusMsg) :=
  c2_amended tNoAuth envFull wEmpty "2026-02-10" "和風" 5 0 "2026/02/10" wEmpty []
    2026 2 (fun _ => []) rfl rfl rfl

/-- C3, counterexample: with the user code and password both absent but a
valid stored session, `place_order` runs to a successful result — no
configuration error is surfaced. -/
theorem c3_counterexample :
    envNoCreds.bento_user_cd = none ∧ envNoCreds.bento_password = none ∧
    place_order tValid envNoCreds wSaved "2026-02-10" "和風" 1 =
      .ok (⟨true, "2026-02-10 の 和風ランチ を 1 個注文しました。",
            "2026-02-10", "和風ランチ", 1⟩, wSaved) :=
  ⟨rfl, rfl, rfl⟩

/-- C3, amended: the absence of the user code or password is surfaced as
the fatal configuration `RuntimeError` only when the operation reaches
the fresh-login step, i.e. when no stored session loads and validates;
with a valid stored session the operation proceeds without any
credential check. -/
theorem c3_amended :
    ∀ (t : Transport) (env : Env) (w : World) (date menu_type : String) (q : Int)
      (i : Nat) (od : String) (loaded : Bool) (jar1 : List Cookie) (y m : Nat)
      (soup : String → List (List String)),
      (env.bento_user_cd.getD "" = "" ∨ env.bento_password.getD "" = "") →
      _load_cookies w.cookieFile [] = .ok (loaded, jar1) →
      (loaded = false ∨ _is_session_valid (t.probeOrder jar1) = false) →
      _resolve_menu_index menu_type = .ok i →
      _normalize_date date = .ok od →
      place_order t env w date menu_type q = .error (.runtimeError credsErrMsg) ∧
      get_order_status t env w date = .error (.runtimeError credsErrMsg) ∧
      get_monthly_orders t env w y m soup = .error (.runtimeError credsErrMsg) := by
  intro t env w date menu_type q i od loaded jar1 y m soup hcred hload hcase hres hnorm
  have hcred2 : _get_credentials env = .error (.runtimeError credsErrMsg) := by
    rw [_get_credentials]
    rcases hcred with h | h <;> simp [h]
  have hfresh : freshLogin t env w jar1 = .error (.runtimeError credsErrMsg) := by
    rw [freshLogin, hcred2]
  have hcond : (loaded && _is_session_valid (t.probeOrder jar1)) = false := by
    rcases hcase with h | h <;> simp [h]
  have hlog : _login t env false w [] = .error (.runtimeError credsErrMsg) := by
    simp [_login, hload, hcond, hfresh]
  refine ⟨?_, ?_, ?_⟩
  · simp [place_order, hres, hnorm, hlog]
  · simp [get_order_status, hnorm, hlog]
  · simp [get_monthly_orders, hlog]

/-- C3 witness: missing credentials with a stored-but-invalid session
raise the configuration error on every operation. -/
theorem c3_amended_witness :
    place_order tNoAuth envNoCreds wSaved "2026-02-10" "和風" 1 =
      .error (.runtimeError credsErrMsg) ∧
    get_order_status tNoAuth envNoCreds wSaved "2026-02-10" =
      .error (.runtimeError credsErrMsg) ∧
    get_monthly_orders tNoAuth envNoCreds wSaved 2026 2 (fun _ => []) =
      .error (.runtimeError credsErrMsg) :=
  c3_amended tNoAuth envNoCreds wSaved "2026-02-10" "和風" 1 0 "2026/02/10" true
    [⟨".ASPXAUTH", "c1", "example.test", "/"⟩] 2026 2 (fun _ => [])
    (Or.inl rfl) rfl (Or.inr rfl) rfl rfl

/-- Every value of the alias table is a slot index below 3. -/
theorem mapLookup_lt_three :
    ∀ (k : String) (v : Nat), mapLookup MENU_TYPE_MAP k = some v → v < 3 := by
  intro k v h
  rw [mapLookup] at h
  cases hf : List.find? (fun p => p.1 = k) MENU_TYPE_MAP with
  | none => rw [hf] at h; exact Option.noConfusion h
  | some p =>
    rw [hf] at h
    injection h with hv
    rw [← hv]
    have hmem := List.mem_of_find?_eq_some hf
    fin_cases hmem <;> decide

/-- `_resolve_menu_index` only returns slot indices below 3. -/
theorem resolve_index_lt_three :
    ∀ (s : String) (i : Nat), _resolve_menu_index s = .ok i → i < 3 := by
  intro s i h
  simp only [_resolve_menu_index] at h
  split at h
  next j heq =>
    injection h with hj
    subst hj
    exact mapLookup_lt_three _ _ heq
  next heq =>
    split at h
    next idx heq2 =>
      split at h
      next hc =>
        injection h with hj
        subst hj
        simp only [Bool.or_eq_true, decide_eq_true_eq] at hc
        omega
      next hc => exact Except.noConfusion h
    next => exact Except.noConfusion h

/-- C10: `place_order` applies no validation to the quantity: for any
negative `q`, with a transport that accepts the requests, the slot field
POSTed for the resolved slot is the decimal string of `q` and the call
returns `success = true` with a placement message reporting `q`. -/
theorem c10_negative_quantity :
    ∀ (t : Transport) (env : Env) (w : World) (date menu_type : String) (q : Int)
      (i : Nat) (od : String) (w1 : World) (jar : List Cookie)
      (oresp : HttpResp) (tok : String) (presp : HttpResp),
      q < 0 →
      _resolve_menu_index menu_type = .ok i →
      _normalize_date date = .ok od →
      _login t env false w [] = .ok (true, w1, jar) →
      t.getOrderPage od jar = some oresp →
      is2xx oresp.status = true →
      _extract_token oresp.text = some tok →
      t.postOrder od (mkOrderForm tok (encodeQuantities i q)) jar = some presp →
      is2xx presp.status = true →
      place_order t env w date menu_type q =
        .ok (⟨true, placedMsg date (placeMenuName i menu_type) q,
              date, placeMenuName i menu_type, q⟩, w1) ∧
      [(mkOrderForm tok (encodeQuantities i q)).q0,
       (mkOrderForm tok (encodeQuantities i q)).q1,
       (mkOrderForm tok (encodeQuantities i q)).q2].getD i "" = toString q := by
  intro t env w date menu_type q i od w1 jar oresp tok presp hq hres hnorm hlog
    hpage h2xx htok hpost hp2
  have hq0 : ¬(q = 0) := by omega
  constructor
  · simp [place_order, hres, hnorm, hlog, hpage, h2xx, htok, hpost, hp2, hq0]
  · have hi := resolve_index_lt_three _ _ hres
    interval_cases i <;> simp [mkOrderForm, encodeQuantities]

/-- C10 witness: quantity −2 is accepted, POSTed as `-2` in slot 1, and
reported back in a success message. -/
theorem c10_negative_quantity_witness :
    place_order tValid envNoCreds wSaved "2026-02-10" "あい" (-2) =
      .ok (⟨true, placedMsg "2026-02-10" (placeMenuName 1 "あい") (-2),
            "2026-02-10", placeMenuName 1 "あい", -2⟩, wSaved) ∧
    [(mkOrderForm "tok" (encodeQuantities 1 (-2))).q0,
     (mkOrderForm "tok" (encodeQuantities 1 (-2))).q1,
     (mkOrderForm "tok" (encodeQuantities 1 (-2))).q2].getD 1 "" =
      toString (-2 : Int) :=
  c10_negative_quantity tValid envNoCreds wSaved "2026-02-10" "あい" (-2) 1
    "2026/02/10" wSaved [⟨".ASPXAUTH", "c1", "example.test", "/"⟩]
    ⟨200, "", pageHtml⟩ "tok" ⟨200, "", ""⟩ (by decide) rfl rfl rfl rfl rfl rfl rfl rfl
